import Mathlib

/-!
# Verification of the ACT marketplace agent module (src/index.ts)

Shallow embedding of the reconciliation pipeline of `src/index.ts`:
the idempotency store, the task-processing state machine
(`processTaskAssignment`), the retrying submitter
(`submitResultWithRetry`), and the startup catch-up scanner
(`catchUpPastEvents`).  External collaborators — the contract
(`getTask`, `submitTask`, event queries), the bytes32 decoder
(`ethers.utils.parseBytes32String`) and the topic handlers — are
passed in as parameters of an `Env` record, exactly as the code
consumes them.  JavaScript numbers that are block heights, states and
attempt counters are modelled as `Nat` (they are small non-negative
integers in the source); task IDs are modelled by their decimal string
form `taskId.toString()`, which is what the code stores and compares.
-/

namespace ActMarketplace

/-- The persisted idempotency store (`interface StoreData`, src/index.ts:44-47):
the highest fully processed block and the list of completed task IDs. -/
structure StoreData where
  lastProcessedBlock : Nat
  processedTaskIds : List String
deriving DecidableEq, Repr

/-- The fields of a fetched task record that `processTaskAssignment` reads
(src/index.ts:139-142): `assignedAgent`, `topic` (raw bytes32, kept opaque
as its hex string), `payload`, and the numeric `state`. -/
structure Task where
  assignedAgent : String
  topic : String
  payload : String
  state : Nat
deriving DecidableEq, Repr

/-- A JavaScript value returned by a topic handler: either a string, which
is submitted as-is, or any other value together with its
`JSON.stringify` serialization (src/index.ts:177). -/
inductive JsValue where
  | str (s : String)
  | obj (stringified : String)
deriving DecidableEq, Repr

/-- `resultString = (typeof resultData === "string") ? resultData : JSON.stringify(resultData)`
(src/index.ts:177). -/
def normalizeResultString : JsValue → String
  | .str s => s
  | .obj j => j

/-- A topic handler: takes the task payload and either returns a value or
throws (src/index.ts:119-124, 175). -/
def Handler := String → Except Unit JsValue

/-- `s.toLowerCase()` as applied to the ASCII hex addresses compared at
src/index.ts:145: character-wise lowercasing (on ASCII strings this
agrees with both the ECMAScript `toLowerCase` and `String.toLower`). -/
def lowerAscii (s : String) : String := ⟨s.data.map Char.toLower⟩

/-- `const MAX_RETRIES = 3` (src/index.ts:200). -/
def MAX_RETRIES : Nat := 3

/-- `const RETRY_DELAY_MS = 10000` (src/index.ts:201). -/
def RETRY_DELAY_MS : Nat := 10000

/-- The externally supplied collaborators of the pipeline, as consumed by
`processTaskAssignment` and `catchUpPastEvents`:
* `agentAddress` — `config.agentAddress` (src/index.ts:13);
* `handlers` — the `topicHandlers` lookup table (src/index.ts:119);
  `none` models an `undefined` lookup result;
* `decodeBytes32` — `ethers.utils.parseBytes32String`; `none` models a
  decoding exception (src/index.ts:157-161);
* `fetch` — `contract.getTask` by task-ID string; `none` models a thrown
  error, caught by the outer `try/catch` (src/index.ts:138, 193);
* `submitOk` — whether the `n`-th `submitTask`-and-`wait` attempt for a
  given task ID confirms (src/index.ts:205-207); `false` models a throw. -/
structure Env where
  agentAddress : String
  handlers : String → Option Handler
  decodeBytes32 : String → Option String
  fetch : String → Option Task
  submitOk : String → Nat → Bool

/-- Outcome of the *awaited* part of `submitResultWithRetry` at a given
attempt number (src/index.ts:202-221).  The body catches every submission
error, so the promise the caller awaits always resolves: on success it
resolves with confirmation; on failure with `attempt < MAX_RETRIES` it
resolves after scheduling a detached retry through `setTimeout` (the
scheduled continuation is *not* awaited by anyone); on failure at the last
attempt it resolves after logging the terminal failure. -/
structure AwaitedSubmit where
  confirmed : Bool
  scheduledAttempt : Option Nat
  terminalLogged : Bool
deriving DecidableEq, Repr

/-- One execution of the body of `submitResultWithRetry` for a task at
`attempt` (src/index.ts:202-221). -/
def submitAwaitedStep (submitOk : Nat → Bool) (attempt : Nat) : AwaitedSubmit :=
  if submitOk attempt then
    { confirmed := true, scheduledAttempt := none, terminalLogged := false }
  else if attempt < MAX_RETRIES then
    { confirmed := false, scheduledAttempt := some (attempt + 1), terminalLogged := false }
  else
    { confirmed := false, scheduledAttempt := none, terminalLogged := true }

/-- Accumulated behaviour of the whole retry chain of
`submitResultWithRetry`, including the detached `setTimeout`
continuations: total number of `submitTask` attempts, whether any attempt
confirmed, whether the terminal failure was logged, and the delay waited
before each retry. -/
structure SubmitChain where
  attemptsMade : Nat
  confirmed : Bool
  terminalLogged : Bool
  delaysMs : List Nat
deriving DecidableEq, Repr

/-- Drain the retry chain starting at `attempt`, with `fuel` bounding the
recursion (`MAX_RETRIES` suffices, since each retry increments the attempt
counter and no retry is scheduled at `attempt = MAX_RETRIES`). -/
def submitRetryDrain (submitOk : Nat → Bool) : Nat → Nat → SubmitChain
  | 0, _ => { attemptsMade := 0, confirmed := false, terminalLogged := false, delaysMs := [] }
  | fuel + 1, attempt =>
    let s := submitAwaitedStep submitOk attempt
    match s.scheduledAttempt with
    | none =>
        { attemptsMade := 1, confirmed := s.confirmed,
          terminalLogged := s.terminalLogged, delaysMs := [] }
    | some next =>
        let rest := submitRetryDrain submitOk fuel next
        { attemptsMade := rest.attemptsMade + 1, confirmed := rest.confirmed,
          terminalLogged := rest.terminalLogged,
          delaysMs := RETRY_DELAY_MS :: rest.delaysMs }

/-- The complete behaviour of `submitResultWithRetry(taskId, result)` called
with the default `attempt = 1` (src/index.ts:202), detached retries
included. -/
def submitResultWithRetryFull (submitOk : Nat → Bool) : SubmitChain :=
  submitRetryDrain submitOk MAX_RETRIES 1

/-- Which branch of `processTaskAssignment` terminated the attempt; each
constructor corresponds to one logged outcome (src/index.ts:128-197). -/
inductive ProcTag where
  | alreadyProcessed
  | fetchFailed
  | notAssignedToAgent
  | wrongState
  | noHandler
  | handlerFailed
  | completed
deriving DecidableEq, Repr

/-- Observable effects of one call to `processTaskAssignment`
(src/index.ts:128-197): the resulting store, the terminating branch,
whether `getTask` was called, the handler lookup key reached (if any),
whether a handler was invoked, how many `submitTask` calls the awaited
part made, whether the awaited attempt confirmed, the result string
submitted (if any), the detached retry left scheduled by the awaited
attempt (if any), whether the task ID was pushed onto
`processedTaskIds`, and how many `saveStore()` calls were made. -/
structure ProcResult where
  store : StoreData
  tag : ProcTag
  fetched : Bool
  lookupKey : Option String
  handlerInvoked : Bool
  submitCalls : Nat
  submitConfirmed : Bool
  submittedResult : Option String
  pendingRetry : Option Nat
  markedProcessed : Bool
  saves : Nat
deriving DecidableEq, Repr

/-- A `ProcResult` for a branch that returns before reaching the handler,
leaving the store untouched. -/
def skipResult (store : StoreData) (tag : ProcTag) (fetched : Bool)
    (lookupKey : Option String) : ProcResult :=
  { store := store, tag := tag, fetched := fetched, lookupKey := lookupKey,
    handlerInvoked := false, submitCalls := 0, submitConfirmed := false,
    submittedResult := none, pendingRetry := none, markedProcessed := false,
    saves := 0 }

/-- `processTaskAssignment(taskId)` (src/index.ts:128-197).  In order:
the idempotency check against `store.processedTaskIds`; the `getTask`
fetch (a throw is caught by the outer catch at line 193); the
assigned-agent check (case-insensitive, line 145); the state check
(`state !== 2`, line 150); the bytes32 topic decode with raw fallback
(lines 156-161); the handler lookup (line 165); the handler invocation
with its own catch (lines 174-182); then the await of
`submitResultWithRetry` — whose promise always resolves, see
`submitAwaitedStep` — followed *unconditionally* by the push onto
`processedTaskIds` and `saveStore()` (lines 187-191). -/
def processTaskAssignment (env : Env) (store : StoreData) (taskIdStr : String) :
    ProcResult :=
  if store.processedTaskIds.contains taskIdStr then
    skipResult store .alreadyProcessed false none
  else
    match env.fetch taskIdStr with
    | none => skipResult store .fetchFailed true none
    | some task =>
      if lowerAscii task.assignedAgent ≠ lowerAscii env.agentAddress then
        skipResult store .notAssignedToAgent true none
      else if task.state ≠ 2 then
        skipResult store .wrongState true none
      else
        let topicName := (env.decodeBytes32 task.topic).getD task.topic
        match env.handlers topicName with
        | none => skipResult store .noHandler true (some topicName)
        | some handler =>
          match handler task.payload with
          | .error _ =>
              { skipResult store .handlerFailed true (some topicName) with
                  handlerInvoked := true }
          | .ok resultData =>
              let resultString := normalizeResultString resultData
              let sub := submitAwaitedStep (env.submitOk taskIdStr) 1
              { store := { store with
                    processedTaskIds := store.processedTaskIds ++ [taskIdStr] },
                tag := .completed, fetched := true, lookupKey := some topicName,
                handlerInvoked := true, submitCalls := 1,
                submitConfirmed := sub.confirmed,
                submittedResult := some resultString,
                pendingRetry := sub.scheduledAttempt,
                markedProcessed := true, saves := 1 }

/-- A raw assignment event as consumed by the catch-up loop
(src/index.ts:256-266): the task ID (from `args.taskId || args[0]`), the
block number, the log index, and whether `args` decoded at all
(`if (!args) continue`, line 263). -/
structure RawEvent where
  taskId : String
  blockNumber : Nat
  logIndex : Nat
  hasArgs : Bool
deriving DecidableEq, Repr

/-- The order imposed by the comparator
`(a, b) => (a.blockNumber - b.blockNumber) || (a.logIndex - b.logIndex)`
(src/index.ts:260): ascending by `(blockNumber, logIndex)`
lexicographically. -/
def eventLe (a b : RawEvent) : Prop :=
  a.blockNumber < b.blockNumber ∨
    (a.blockNumber = b.blockNumber ∧ a.logIndex ≤ b.logIndex)

instance : DecidableRel eventLe := fun a b => by
  unfold eventLe; infer_instance

instance : IsTotal RawEvent eventLe where
  total a b := by unfold eventLe; omega

instance : IsTrans RawEvent eventLe where
  trans a b c hab hbc := by
    unfold eventLe at *; omega

/-- `allEvents.sort(...)` (src/index.ts:260): a stable sort by `eventLe`
(ECMAScript `Array.prototype.sort` is stable, as is insertion sort). -/
def sortEvents (l : List RawEvent) : List RawEvent :=
  l.insertionSort eventLe

/-- The watermark update as the code performs it
(`store.lastProcessedBlock = blockNumber`, src/index.ts:269 and 273): a
plain assignment, with no guard comparing `block` against the current
watermark. -/
def advanceWatermarkStep (store : StoreData) (block : Nat) : StoreData :=
  { store with lastProcessedBlock := block }

/-- Output of the catch-up event loop (src/index.ts:261-271): the final
store, the events actually handed to `processTaskAssignment` in order,
the successive values assigned to `lastProcessedBlock` inside the loop,
and the number of loop-level `saveStore()` calls. -/
structure CatchUpLoopOut where
  store : StoreData
  trace : List RawEvent
  marks : List Nat
  saves : Nat
deriving Repr

/-- The `for (const event of allEvents)` loop (src/index.ts:261-271):
skip events without `args`; otherwise `await processTaskAssignment`,
assign `store.lastProcessedBlock = event.blockNumber`, and `saveStore()`. -/
def catchUpLoop (env : Env) : List RawEvent → StoreData → CatchUpLoopOut
  | [], st => { store := st, trace := [], marks := [], saves := 0 }
  | e :: rest, st =>
    if e.hasArgs then
      let st1 := (processTaskAssignment env st e.taskId).store
      let st2 := advanceWatermarkStep st1 e.blockNumber
      let out := catchUpLoop env rest st2
      { store := out.store, trace := e :: out.trace,
        marks := e.blockNumber :: out.marks, saves := out.saves + 1 }
    else
      catchUpLoop env rest st

/-- `fromBlock = store.lastProcessedBlock ? store.lastProcessedBlock + 1
: (config.contractDeploymentBlock || 0)` (src/index.ts:247-249); the
truthiness test on a block number is a test against `0`, and
`x || 0` is the identity on a non-negative number. -/
def catchUpFromBlock (contractDeploymentBlock : Nat) (store : StoreData) : Nat :=
  if store.lastProcessedBlock ≠ 0 then store.lastProcessedBlock + 1
  else (if contractDeploymentBlock ≠ 0 then contractDeploymentBlock else 0)

/-- Result of one run of `catchUpPastEvents` (src/index.ts:245-279):
final store, processed events in order, whether the event queries were
performed at all, the successive watermark values stored (loop
assignments followed by the final `latestBlock` assignment), and the
number of `saveStore()` calls made by the scanner itself. -/
structure CatchUpResult where
  store : StoreData
  processedEvents : List RawEvent
  queried : Bool
  watermarks : List Nat
  saves : Nat
deriving Repr

/-- `catchUpPastEvents()` (src/index.ts:245-279), parameterised by the
query results for the two event kinds (`AssignTaskByClient` then
`AssignTaskByAgent`) and the current chain height `latestBlock`.
Computes `fromBlock`; returns immediately if `latestBlock < fromBlock`
(line 251) — before any `queryFilter` call; otherwise concatenates the
two query results in the order `[...eventsClient, ...eventsAgent]`
(line 258), sorts them (line 260), runs the loop, and finally assigns
`store.lastProcessedBlock = latestBlock` and saves (lines 273-274). -/
def catchUpPastEvents (env : Env) (contractDeploymentBlock : Nat)
    (latestBlock : Nat) (eventsClient eventsAgent : List RawEvent)
    (store : StoreData) : CatchUpResult :=
  let fromBlock := catchUpFromBlock contractDeploymentBlock store
  if latestBlock < fromBlock then
    { store := store, processedEvents := [], queried := false,
      watermarks := [], saves := 0 }
  else
    let allEvents := sortEvents (eventsClient ++ eventsAgent)
    let out := catchUpLoop env allEvents store
    { store := advanceWatermarkStep out.store latestBlock,
      processedEvents := out.trace, queried := true,
      watermarks := out.marks ++ [latestBlock], saves := out.saves + 1 }

/-- The `lastProcessedBlock` content of a well-formed `processedTasks.json`
file together with its `processedTaskIds` field (`some` when
`Array.isArray(data.processedTaskIds)` holds). -/
structure FileData where
  lastProcessedBlock : Nat
  processedTaskIds : Option (List String)
deriving DecidableEq, Repr

/-- The startup load of the persisted store (src/index.ts:48-63): start
from `{ lastProcessedBlock: config.lastProcessedBlock, processedTaskIds: [] }`;
if the file is missing or unreadable keep that; otherwise adopt the
file's `lastProcessedBlock` only when it is truthy (`≠ 0`) *and*
strictly greater than the configured value, and adopt
`processedTaskIds` when it is an array. -/
def loadStore (configLastProcessedBlock : Nat) (file : Option FileData) :
    StoreData :=
  let store : StoreData :=
    { lastProcessedBlock := configLastProcessedBlock, processedTaskIds := [] }
  match file with
  | none => store
  | some data =>
    let store :=
      if data.lastProcessedBlock ≠ 0 ∧
          data.lastProcessedBlock > store.lastProcessedBlock then
        { store with lastProcessedBlock := data.lastProcessedBlock }
      else store
    match data.processedTaskIds with
    | some ids => { store with processedTaskIds := ids }
    | none => store

/-! ### Concrete fixtures used by witnesses and counterexamples -/

/-- A task assigned to the configured agent (mixed-case address), topic
`social_twitter`, in state `ASSIGNED = 2`. -/
def taskW : Task :=
  { assignedAgent := "0xAbCd", topic := "social_twitter", payload := "p", state := 2 }

/-- A baseline environment: the agent address differs from the task's only
in case, the registry has a `social_twitter` handler that succeeds, the
decoder succeeds, fetching returns `taskW`, and every submission attempt
confirms. -/
def envW : Env :=
  { agentAddress := "0xABCD",
    handlers := fun k =>
      if k = "social_twitter" then
        some ((fun _ => Except.ok (JsValue.str "done")) : Handler)
      else none,
    decodeBytes32 := fun s => some s,
    fetch := fun _ => some taskW,
    submitOk := fun _ _ => true }

/-- `envW`, except that every `submitTask` attempt throws. -/
def envFail : Env :=
  { envW with submitOk := fun _ _ => false }

/-- A task assigned to a different agent. -/
def taskOther : Task :=
  { taskW with assignedAgent := "0xEeEe" }

/-- `envW`, except that fetching returns a task assigned to another agent. -/
def envOther : Env :=
  { envW with fetch := fun _ => some taskOther }

/-- A task whose topic decodes to `unknown_topic`, for which no handler is
registered. -/
def taskUnknown : Task :=
  { taskW with topic := "unknown_topic" }

/-- `envW`, except that fetching returns `taskUnknown`. -/
def envUnknown : Env :=
  { envW with fetch := fun _ => some taskUnknown }

/-- `envW`, except that the `social_twitter` handler throws. -/
def envThrow : Env :=
  { envW with
    handlers := fun k =>
      if k = "social_twitter" then
        some ((fun _ => Except.error ()) : Handler)
      else none }

/-- Raw event at `(blockHeight, logIndex) = (5, 1)`. -/
def ev1 : RawEvent := { taskId := "t1", blockNumber := 5, logIndex := 1, hasArgs := true }

/-- Raw event at `(blockHeight, logIndex) = (3, 0)`. -/
def ev2 : RawEvent := { taskId := "t2", blockNumber := 3, logIndex := 0, hasArgs := true }

/-- Raw event at `(blockHeight, logIndex) = (3, 1)`. -/
def ev3 : RawEvent := { taskId := "t3", blockNumber := 3, logIndex := 1, hasArgs := true }

/-! ### Helper lemmas -/

theorem advanceWatermarkStep_lastBlock (st : StoreData) (b : Nat) :
    (advanceWatermarkStep st b).lastProcessedBlock = b := rfl

theorem processTaskAssignment_lastBlock (env : Env) (st : StoreData) (id : String) :
    (processTaskAssignment env st id).store.lastProcessedBlock
      = st.lastProcessedBlock := by
  unfold processTaskAssignment skipResult
  dsimp only
  repeat' split
  all_goals rfl

theorem eventLe_blockNumber {a b : RawEvent} (h : eventLe a b) :
    a.blockNumber ≤ b.blockNumber := by
  unfold eventLe at h; omega

theorem lastBlock_le_fromBlock (cdb : Nat) (st : StoreData) :
    st.lastProcessedBlock ≤ catchUpFromBlock cdb st := by
  unfold catchUpFromBlock
  split
  · omega
  · split <;> omega

theorem catchUpLoop_trace_sublist (env : Env) :
    ∀ (l : List RawEvent) (st : StoreData),
      List.Sublist (catchUpLoop env l st).trace l
  | [], _ => List.Sublist.refl _
  | e :: rest, st => by
    unfold catchUpLoop
    dsimp only
    split
    · exact (catchUpLoop_trace_sublist env rest _).cons₂ e
    · exact (catchUpLoop_trace_sublist env rest st).cons e

theorem catchUpLoop_cons_of_args (env : Env) (e : RawEvent) (rest : List RawEvent)
    (st : StoreData) (h : e.hasArgs = true) :
    catchUpLoop env (e :: rest) st =
      { store := (catchUpLoop env rest (advanceWatermarkStep
          (processTaskAssignment env st e.taskId).store e.blockNumber)).store,
        trace := e :: (catchUpLoop env rest (advanceWatermarkStep
          (processTaskAssignment env st e.taskId).store e.blockNumber)).trace,
        marks := e.blockNumber :: (catchUpLoop env rest (advanceWatermarkStep
          (processTaskAssignment env st e.taskId).store e.blockNumber)).marks,
        saves := (catchUpLoop env rest (advanceWatermarkStep
          (processTaskAssignment env st e.taskId).store e.blockNumber)).saves
          + 1 } := by
  rw [catchUpLoop]
  dsimp only
  rw [if_pos h]

theorem catchUpLoop_cons_of_no_args (env : Env) (e : RawEvent)
    (rest : List RawEvent) (st : StoreData) (h : ¬ e.hasArgs = true) :
    catchUpLoop env (e :: rest) st = catchUpLoop env rest st := by
  rw [catchUpLoop]
  dsimp only
  rw [if_neg h]

theorem catchUpLoop_monotone (env : Env) (l : List RawEvent) :
    ∀ (st : StoreData),
      l.Pairwise eventLe →
      (∀ e ∈ l, st.lastProcessedBlock ≤ e.blockNumber) →
      List.Chain' (· ≤ ·)
        (st.lastProcessedBlock :: (catchUpLoop env l st).marks) ∧
      (st.lastProcessedBlock :: (catchUpLoop env l st).marks).getLast?
        = some (catchUpLoop env l st).store.lastProcessedBlock ∧
      st.lastProcessedBlock ≤ (catchUpLoop env l st).store.lastProcessedBlock ∧
      ((catchUpLoop env l st).store.lastProcessedBlock = st.lastProcessedBlock ∨
        ∃ e ∈ l, (catchUpLoop env l st).store.lastProcessedBlock
          = e.blockNumber) := by
  induction l with
  | nil =>
    intro st _ _
    exact ⟨List.chain'_singleton _, rfl, le_refl _, Or.inl rfl⟩
  | cons e rest ih =>
    intro st hp hlow
    obtain ⟨hhead, htail⟩ := List.pairwise_cons.mp hp
    by_cases hargs : e.hasArgs = true
    · rw [catchUpLoop_cons_of_args env e rest st hargs]
      set st2 := advanceWatermarkStep
        (processTaskAssignment env st e.taskId).store e.blockNumber with hst2
      have hst2b : st2.lastProcessedBlock = e.blockNumber := rfl
      have hlow2 : ∀ e' ∈ rest, st2.lastProcessedBlock ≤ e'.blockNumber := by
        intro e' he'
        rw [hst2b]
        exact eventLe_blockNumber (hhead e' he')
      obtain ⟨ch, gl, hle, heqor⟩ := ih st2 htail hlow2
      refine ⟨?_, ?_, ?_, ?_⟩
      · exact List.chain'_cons.mpr ⟨hlow e (List.mem_cons_self e rest),
          hst2b ▸ ch⟩
      · rw [List.getLast?_cons_cons]
        rw [hst2b] at gl
        exact gl
      · exact le_trans (hlow e (List.mem_cons_self e rest)) (hst2b ▸ hle)
      · rcases heqor with heq | ⟨e', he', heq⟩
        · exact Or.inr ⟨e, List.mem_cons_self e rest, by rw [heq, hst2b]⟩
        · exact Or.inr ⟨e', List.mem_cons_of_mem e he', heq⟩
    · rw [catchUpLoop_cons_of_no_args env e rest st hargs]
      have hlow' : ∀ e' ∈ rest, st.lastProcessedBlock ≤ e'.blockNumber :=
        fun e' he' => hlow e' (List.mem_cons_of_mem e he')
      obtain ⟨ch, gl, hle, heqor⟩ := ih st htail hlow'
      refine ⟨ch, gl, hle, ?_⟩
      rcases heqor with heq | ⟨e', he', heq⟩
      · exact Or.inl heq
      · exact Or.inr ⟨e', List.mem_cons_of_mem e he', heq⟩

/-! ### Theorems for the claims -/

/-- C3: a call to `processTaskAssignment` with a task ID already contained
in `processedTaskIds` returns immediately after logging the skip: the
task is not fetched, no handler is invoked, no submission call is made,
and the store is unchanged by the call. -/
theorem c3_idempotency_skip (env : Env) (st : StoreData) (taskIdStr : String)
    (h : st.processedTaskIds.contains taskIdStr = true) :
    (processTaskAssignment env st taskIdStr).store = st ∧
    (processTaskAssignment env st taskIdStr).tag = .alreadyProcessed ∧
    (processTaskAssignment env st taskIdStr).fetched = false ∧
    (processTaskAssignment env st taskIdStr).handlerInvoked = false ∧
    (processTaskAssignment env st taskIdStr).submitCalls = 0 ∧
    (processTaskAssignment env st taskIdStr).saves = 0 := by
  have h' : taskIdStr ∈ st.processedTaskIds := by simpa using h
  unfold processTaskAssignment
  simp [h', skipResult]

/-- Witness for C3 at a concrete input: task `"7"` is already in the
store, and the call leaves everything untouched. -/
theorem c3_idempotency_skip_witness :
    (StoreData.mk 0 ["7"]).processedTaskIds.contains "7" = true ∧
    ((processTaskAssignment envW (StoreData.mk 0 ["7"]) "7").store
        = StoreData.mk 0 ["7"] ∧
      (processTaskAssignment envW (StoreData.mk 0 ["7"]) "7").tag
        = .alreadyProcessed ∧
      (processTaskAssignment envW (StoreData.mk 0 ["7"]) "7").fetched = false ∧
      (processTaskAssignment envW (StoreData.mk 0 ["7"]) "7").handlerInvoked
        = false ∧
      (processTaskAssignment envW (StoreData.mk 0 ["7"]) "7").submitCalls = 0 ∧
      (processTaskAssignment envW (StoreData.mk 0 ["7"]) "7").saves = 0) :=
  ⟨by decide, c3_idempotency_skip envW (StoreData.mk 0 ["7"]) "7" (by decide)⟩

/-- C5: a fetched task whose `assignedAgent` does not equal the configured
agent address under case-insensitive comparison, or whose state is not
`ASSIGNED` (2), is skipped: no handler invocation, no submission call, no
addition to the processed set, and no persist. -/
theorem c5_validation_gate (env : Env) (st : StoreData) (taskIdStr : String)
    (task : Task)
    (hnp : st.processedTaskIds.contains taskIdStr = false)
    (hf : env.fetch taskIdStr = some task)
    (hbad : lowerAscii task.assignedAgent ≠ lowerAscii env.agentAddress ∨
      task.state ≠ 2) :
    (processTaskAssignment env st taskIdStr).handlerInvoked = false ∧
    (processTaskAssignment env st taskIdStr).submitCalls = 0 ∧
    (processTaskAssignment env st taskIdStr).store = st ∧
    (processTaskAssignment env st taskIdStr).markedProcessed = false ∧
    (processTaskAssignment env st taskIdStr).saves = 0 := by
  have hnp' : taskIdStr ∉ st.processedTaskIds := by simpa using hnp
  unfold processTaskAssignment
  rcases hbad with hb | hb
  · simp [hnp', hf, hb, skipResult]
  · by_cases ha : lowerAscii task.assignedAgent ≠ lowerAscii env.agentAddress
    · simp [hnp', hf, ha, skipResult]
    · simp [hnp', hf, ha, hb, skipResult]

/-- Witness for C5 at a concrete input: a task assigned to another agent
is skipped with the store unchanged. -/
theorem c5_validation_gate_witness :
    (StoreData.mk 0 []).processedTaskIds.contains "1" = false ∧
    envOther.fetch "1" = some taskOther ∧
    (lowerAscii taskOther.assignedAgent ≠ lowerAscii envOther.agentAddress ∨
      taskOther.state ≠ 2) ∧
    ((processTaskAssignment envOther (StoreData.mk 0 []) "1").handlerInvoked
        = false ∧
      (processTaskAssignment envOther (StoreData.mk 0 []) "1").submitCalls = 0 ∧
      (processTaskAssignment envOther (StoreData.mk 0 []) "1").store
        = StoreData.mk 0 [] ∧
      (processTaskAssignment envOther (StoreData.mk 0 []) "1").markedProcessed
        = false ∧
      (processTaskAssignment envOther (StoreData.mk 0 []) "1").saves = 0) :=
  ⟨by decide, rfl, by decide,
    c5_validation_gate envOther (StoreData.mk 0 []) "1" taskOther
      (by decide) rfl (by decide)⟩

/-- C7: for a validated task, the handler lookup key is the decoded
bytes32 topic, or the raw topic identifier when decoding fails; when no
handler is registered under that key, the attempt ends with an error log
and no handler invocation, no submission, and an unchanged store. -/
theorem c7_missing_handler (env : Env) (st : StoreData) (taskIdStr : String)
    (task : Task)
    (hnp : st.processedTaskIds.contains taskIdStr = false)
    (hf : env.fetch taskIdStr = some task)
    (hagent : lowerAscii task.assignedAgent = lowerAscii env.agentAddress)
    (hstate : task.state = 2)
    (hnone : env.handlers ((env.decodeBytes32 task.topic).getD task.topic)
      = none) :
    (processTaskAssignment env st taskIdStr).lookupKey
        = some ((env.decodeBytes32 task.topic).getD task.topic) ∧
    (processTaskAssignment env st taskIdStr).tag = .noHandler ∧
    (processTaskAssignment env st taskIdStr).handlerInvoked = false ∧
    (processTaskAssignment env st taskIdStr).submitCalls = 0 ∧
    (processTaskAssignment env st taskIdStr).store = st ∧
    (processTaskAssignment env st taskIdStr).markedProcessed = false := by
  have hnp' : taskIdStr ∉ st.processedTaskIds := by simpa using hnp
  unfold processTaskAssignment
  simp [hnp', hf, hagent, hstate, hnone, skipResult]

/-- Witness for C7 at a concrete input: a validated task whose topic
decodes to `unknown_topic`, for which no handler is registered, is
skipped and the processed set is unchanged. -/
theorem c7_missing_handler_witness :
    (StoreData.mk 0 []).processedTaskIds.contains "1" = false ∧
    envUnknown.fetch "1" = some taskUnknown ∧
    lowerAscii taskUnknown.assignedAgent = lowerAscii envUnknown.agentAddress ∧
    taskUnknown.state = 2 ∧
    envUnknown.handlers
      ((envUnknown.decodeBytes32 taskUnknown.topic).getD taskUnknown.topic)
      = none ∧
    ((processTaskAssignment envUnknown (StoreData.mk 0 []) "1").lookupKey
        = some ((envUnknown.decodeBytes32 taskUnknown.topic).getD
          taskUnknown.topic) ∧
      (processTaskAssignment envUnknown (StoreData.mk 0 []) "1").tag
        = .noHandler ∧
      (processTaskAssignment envUnknown (StoreData.mk 0 []) "1").handlerInvoked
        = false ∧
      (processTaskAssignment envUnknown (StoreData.mk 0 []) "1").submitCalls
        = 0 ∧
      (processTaskAssignment envUnknown (StoreData.mk 0 []) "1").store
        = StoreData.mk 0 [] ∧
      (processTaskAssignment envUnknown (StoreData.mk 0 []) "1").markedProcessed
        = false) :=
  ⟨by decide, rfl, by decide, rfl, rfl,
    c7_missing_handler envUnknown (StoreData.mk 0 []) "1" taskUnknown
      (by decide) rfl (by decide) rfl rfl⟩

/-- C9: when the handler invocation throws, the attempt logs the error and
returns without submitting and without adding the task ID to the
processed set; the store is unchanged, so the task stays eligible for a
later redelivery. -/
theorem c9_handler_failure (env : Env) (st : StoreData) (taskIdStr : String)
    (task : Task) (f : Handler)
    (hnp : st.processedTaskIds.contains taskIdStr = false)
    (hf : env.fetch taskIdStr = some task)
    (hagent : lowerAscii task.assignedAgent = lowerAscii env.agentAddress)
    (hstate : task.state = 2)
    (hhandler : env.handlers ((env.decodeBytes32 task.topic).getD task.topic)
      = some f)
    (hthrow : f task.payload = Except.error ()) :
    (processTaskAssignment env st taskIdStr).tag = .handlerFailed ∧
    (processTaskAssignment env st taskIdStr).submitCalls = 0 ∧
    (processTaskAssignment env st taskIdStr).markedProcessed = false ∧
    (processTaskAssignment env st taskIdStr).saves = 0 ∧
    (processTaskAssignment env st taskIdStr).store = st ∧
    (processTaskAssignment env st taskIdStr).store.processedTaskIds.contains
      taskIdStr = false := by
  have hnp' : taskIdStr ∉ st.processedTaskIds := by simpa using hnp
  unfold processTaskAssignment
  simp [hnp', hf, hagent, hstate, hhandler, hthrow, skipResult, hnp]

/-- Witness for C9 at a concrete input: the `social_twitter` handler
throws, and the task is left unprocessed with the store unchanged. -/
theorem c9_handler_failure_witness :
    (StoreData.mk 0 []).processedTaskIds.contains "1" = false ∧
    envThrow.fetch "1" = some taskW ∧
    lowerAscii taskW.assignedAgent = lowerAscii envThrow.agentAddress ∧
    taskW.state = 2 ∧
    ((processTaskAssignment envThrow (StoreData.mk 0 []) "1").tag
        = .handlerFailed ∧
      (processTaskAssignment envThrow (StoreData.mk 0 []) "1").submitCalls
        = 0 ∧
      (processTaskAssignment envThrow (StoreData.mk 0 []) "1").markedProcessed
        = false ∧
      (processTaskAssignment envThrow (StoreData.mk 0 []) "1").saves = 0 ∧
      (processTaskAssignment envThrow (StoreData.mk 0 []) "1").store
        = StoreData.mk 0 [] ∧
      (processTaskAssignment envThrow
        (StoreData.mk 0 []) "1").store.processedTaskIds.contains "1"
        = false) :=
  ⟨by decide, rfl, by decide, rfl,
    c9_handler_failure envThrow (StoreData.mk 0 []) "1" taskW
      ((fun _ => Except.error ()) : Handler)
      (by decide) rfl (by decide) rfl rfl rfl⟩

/-- C10: after the startup load, the in-memory watermark is the maximum
of the configured `lastProcessedBlock` and the file's value, a zero (or
not greater) file value being ignored; a missing file keeps the
configured value. -/
theorem c10_load_watermark (cfg : Nat) (data : FileData) :
    (loadStore cfg (some data)).lastProcessedBlock
        = max cfg data.lastProcessedBlock ∧
    (loadStore cfg none).lastProcessedBlock = cfg := by
  constructor
  · rcases data with ⟨b, ids⟩
    unfold loadStore
    cases ids <;> dsimp only <;> split <;> simp <;> omega
  · rfl

/-- C1 (code bug): when no submission attempt is confirmed — here every
`submitTask` attempt throws — `processTaskAssignment` nevertheless pushes
the task ID onto `processedTaskIds` and saves the store, because the
promise of `submitResultWithRetry` resolves right after the first failed
attempt (the retry is scheduled through `setTimeout` and never awaited),
contradicting the claim that `markProcessed`/`persist` run only after
confirmed acceptance. -/
theorem c1_marked_without_confirmation :
    (processTaskAssignment envFail (StoreData.mk 0 []) "1").submitConfirmed
        = false ∧
    (submitResultWithRetryFull (envFail.submitOk "1")).confirmed = false ∧
    (processTaskAssignment envFail (StoreData.mk 0 []) "1").markedProcessed
        = true ∧
    (processTaskAssignment envFail
        (StoreData.mk 0 []) "1").store.processedTaskIds = ["1"] ∧
    (processTaskAssignment envFail (StoreData.mk 0 []) "1").saves = 1 := by
  decide

/-- C2 (code bug): with every attempt failing, the retry chain makes
exactly 3 attempts in total, waiting the fixed 10-second delay before
each of the two retries, and logs the terminal failure without any
confirmation — but the task ID ends up in the processed set anyway,
because the task processor marked it after the first (failed) awaited
attempt, contradicting the claim that the task ID is absent from the
processed set afterwards. -/
theorem c2_retry_exhaustion :
    (submitResultWithRetryFull (fun _ => false)).attemptsMade = 3 ∧
    (submitResultWithRetryFull (fun _ => false)).delaysMs
        = [RETRY_DELAY_MS, RETRY_DELAY_MS] ∧
    RETRY_DELAY_MS = 10000 ∧
    (submitResultWithRetryFull (fun _ => false)).terminalLogged = true ∧
    (submitResultWithRetryFull (fun _ => false)).confirmed = false ∧
    (processTaskAssignment envFail
        (StoreData.mk 0 []) "1").store.processedTaskIds.contains "1" = true := by
  decide

/-- C4: the Reconciliation Scanner processes the concatenation of both
event kinds' query results sorted by `(blockHeight, logIndex)` ascending
— the processed sequence is always sorted by that key — and on raw
events at `(5,1)`, `(3,0)`, `(3,1)` for distinct tasks the processing
order is `(3,0)`, `(3,1)`, `(5,1)`. -/
theorem c4_scanner_ordering :
    (∀ (env : Env) (cdb latest : Nat) (ec ea : List RawEvent) (st : StoreData),
      List.Sorted eventLe
        (catchUpPastEvents env cdb latest ec ea st).processedEvents) ∧
    (catchUpPastEvents envW 0 6 [ev1] [ev2, ev3]
        (StoreData.mk 0 [])).processedEvents = [ev2, ev3, ev1] := by
  constructor
  · intro env cdb latest ec ea st
    unfold catchUpPastEvents
    dsimp only
    split
    · simp
    · exact (List.sorted_insertionSort eventLe (ec ++ ea)).sublist
        (catchUpLoop_trace_sublist env _ st)
  · decide

/-- C6 counterexample: the code's watermark update is an unguarded
assignment, so an advance call with a block height (3) at or below the
current watermark (5) *changes* (decreases) the stored value instead of
being a silent no-op, refuting the claim as stated. -/
theorem c6_advance_below_watermark_changes :
    3 ≤ (StoreData.mk 5 ["7"]).lastProcessedBlock ∧
    (advanceWatermarkStep (StoreData.mk 5 ["7"]) 3).lastProcessedBlock ≠
      (StoreData.mk 5 ["7"]).lastProcessedBlock := by
  decide

/-- C6 (amended): the watermark assignments inside `catchUpPastEvents`
never decrease `lastProcessedBlock`, provided every queried event lies
in the queried range `[fromBlock, latestBlock]` (the contract of
`queryFilter`): the successive stored values form a non-decreasing
chain, and the final value is at least the initial one. -/
theorem c6_watermark_monotone (env : Env) (cdb latest : Nat)
    (ec ea : List RawEvent) (st : StoreData)
    (hrange : ∀ e ∈ ec ++ ea,
      catchUpFromBlock cdb st ≤ e.blockNumber ∧ e.blockNumber ≤ latest) :
    st.lastProcessedBlock
        ≤ (catchUpPastEvents env cdb latest ec ea st).store.lastProcessedBlock ∧
    List.Chain' (· ≤ ·) (st.lastProcessedBlock ::
        (catchUpPastEvents env cdb latest ec ea st).watermarks) := by
  unfold catchUpPastEvents
  dsimp only
  split
  · exact ⟨le_refl _, List.chain'_singleton _⟩
  · rename_i h
    have hfrom : catchUpFromBlock cdb st ≤ latest := Nat.le_of_not_lt h
    have hstle : st.lastProcessedBlock ≤ catchUpFromBlock cdb st :=
      lastBlock_le_fromBlock cdb st
    have hsorted := List.sorted_insertionSort eventLe (ec ++ ea)
    have hmem : ∀ e ∈ sortEvents (ec ++ ea), e ∈ ec ++ ea := fun e he =>
      (List.perm_insertionSort eventLe (ec ++ ea)).mem_iff.mp he
    have hlow : ∀ e ∈ sortEvents (ec ++ ea),
        st.lastProcessedBlock ≤ e.blockNumber :=
      fun e he => le_trans hstle (hrange e (hmem e he)).1
    obtain ⟨ch, gl, hle, heqor⟩ :=
      catchUpLoop_monotone env (sortEvents (ec ++ ea)) st hsorted hlow
    constructor
    · exact le_trans hstle hfrom
    · rw [← List.cons_append]
      refine List.chain'_append.mpr ⟨ch, List.chain'_singleton _, ?_⟩
      intro x hx y hy
      simp only [List.head?_cons, Option.mem_def, Option.some.injEq] at hy
      subst hy
      rw [gl] at hx
      simp only [Option.mem_def, Option.some.injEq] at hx
      subst hx
      rcases heqor with heq | ⟨e, he, heq⟩
      · rw [heq]
        exact le_trans hstle hfrom
      · rw [heq]
        exact (hrange e (hmem e he)).2

/-- Witness for the amended C6 at a concrete input: three in-range events
from an unset watermark, current height 6. -/
theorem c6_watermark_monotone_witness :
    (∀ e ∈ [ev1] ++ [ev2, ev3],
      catchUpFromBlock 0 (StoreData.mk 0 []) ≤ e.blockNumber ∧
        e.blockNumber ≤ 6) ∧
    ((StoreData.mk 0 []).lastProcessedBlock ≤
        (catchUpPastEvents envW 0 6 [ev1] [ev2, ev3]
          (StoreData.mk 0 [])).store.lastProcessedBlock ∧
      List.Chain' (· ≤ ·) ((StoreData.mk 0 []).lastProcessedBlock ::
        (catchUpPastEvents envW 0 6 [ev1] [ev2, ev3]
          (StoreData.mk 0 [])).watermarks)) :=
  ⟨by decide,
    c6_watermark_monotone envW 0 6 [ev1] [ev2, ev3] (StoreData.mk 0 [])
      (by decide)⟩

/-- C8: on catch-up, `fromBlock` is the stored watermark plus 1, or the
configured deployment height when the watermark is unset (zero);
`toBlock` is the ledger's current height; when `toBlock < fromBlock`
the scanner performs no queries and no processing and leaves the store
unchanged; otherwise, after the loop, the watermark is set to `toBlock`
and the store is saved — also when no events existed in the range. -/
theorem c8_catchup_shape (env : Env) (cdb latest : Nat)
    (ec ea : List RawEvent) (st : StoreData) :
    (catchUpFromBlock cdb st =
      if st.lastProcessedBlock ≠ 0 then st.lastProcessedBlock + 1 else cdb) ∧
    (latest < catchUpFromBlock cdb st →
      (catchUpPastEvents env cdb latest ec ea st).queried = false ∧
      (catchUpPastEvents env cdb latest ec ea st).store = st ∧
      (catchUpPastEvents env cdb latest ec ea st).processedEvents = [] ∧
      (catchUpPastEvents env cdb latest ec ea st).saves = 0) ∧
    (¬ latest < catchUpFromBlock cdb st →
      (catchUpPastEvents env cdb latest ec ea st).queried = true ∧
      (catchUpPastEvents env cdb latest ec ea st).store.lastProcessedBlock
        = latest ∧
      1 ≤ (catchUpPastEvents env cdb latest ec ea st).saves) := by
  refine ⟨?_, ?_, ?_⟩
  · unfold catchUpFromBlock
    split
    · rfl
    · split <;> omega
  · intro h
    unfold catchUpPastEvents
    dsimp only
    rw [if_pos h]
    exact ⟨rfl, rfl, rfl, rfl⟩
  · intro h
    unfold catchUpPastEvents
    dsimp only
    rw [if_neg h]
    exact ⟨rfl, rfl, Nat.succ_le_succ (Nat.zero_le _)⟩

/-- Witness for C8 at concrete inputs: with watermark 7 and height 5 the
scanner is a no-op; with an unset watermark, height 6 and no events, the
final watermark is 6 and the store was saved. -/
theorem c8_catchup_shape_witness :
    (5 < catchUpFromBlock 0 (StoreData.mk 7 []) ∧
      (catchUpPastEvents envW 0 5 [] [] (StoreData.mk 7 [])).queried = false ∧
      (catchUpPastEvents envW 0 5 [] [] (StoreData.mk 7 [])).store
        = StoreData.mk 7 []) ∧
    (¬ 6 < catchUpFromBlock 0 (StoreData.mk 0 []) ∧
      (catchUpPastEvents envW 0 6 [] []
          (StoreData.mk 0 [])).store.lastProcessedBlock = 6 ∧
      1 ≤ (catchUpPastEvents envW 0 6 [] [] (StoreData.mk 0 [])).saves) := by
  constructor
  · have h := (c8_catchup_shape envW 0 5 [] [] (StoreData.mk 7 [])).2.1
      (by decide)
    exact ⟨by decide, h.1, h.2.1⟩
  · have h := (c8_catchup_shape envW 0 6 [] [] (StoreData.mk 0 [])).2.2
      (by decide)
    exact ⟨by decide, h.2.1, h.2.2⟩

end ActMarketplace
